import Mathlib

/-
Verification of the Edu-Resource database reset utility (reset_db.py).

The script is a linear CLI flow: optional confirmation prompt, connect to
the database, liveness ping, list the collections, drop each one, close
the connection, and exit with a status code.  We embed it shallowly: the
database driver is an environment `DBEnv` recording, for each driver
operation, whether it raises (and with which message) and which
collection names the listing call returns.  A run is a pure function from
that environment (plus the command-line arguments, the connection URI and
the operator's typed response) to an exit code and a trace of events:
printed lines, the interactive prompt, and the driver calls that were
actually issued.
-/

/-- Python-style `str.split(sep)` for a single-character separator,
on the character list of the string.  `pysplit sep l` is never empty. -/
def pysplit (sep : Char) : List Char → List (List Char)
  | [] => [[]]
  | c :: rest =>
    if c = sep then
      [] :: pysplit sep rest
    else
      match pysplit sep rest with
      | [] => [[c]]
      | g :: gs => (c :: g) :: gs

/-- Python `l[0]` on a split result (split results are never empty). -/
def headOrNil : List (List Char) → List Char
  | [] => []
  | g :: _ => g

/-- Python `l[-1]` on a split result (split results are never empty). -/
def lastOrNil : List (List Char) → List Char
  | [] => []
  | [g] => g
  | _ :: g :: gs => lastOrNil (g :: gs)

/-- `MONGODB_URI.split('/')[-1].split('?')[0]` from `reset_database`:
the target database name the script derives from the connection URI. -/
def dbNameOf (uri : String) : String :=
  String.mk (headOrNil (pysplit '?' (lastOrNil (pysplit '/' uri.data))))

/-- Modelled from the spec: the database name as the spec describes it,
"the path segment of the URI, stripped of any query-string suffix" -
first strip everything from the first `?` on, then take the last
`/`-separated segment.  Used only to compare against `dbNameOf`. -/
def pathSegmentOfUri (uri : String) : String :=
  String.mk (lastOrNil (pysplit '/' (headOrNil (pysplit '?' uri.data))))

/-- The ASCII whitespace characters stripped by Python `str.strip()`. -/
def isPySpace (c : Char) : Bool :=
  c == ' ' || c == '\t' || c == '\n' || c == '\r' || c == '\x0b' || c == '\x0c'

/-- Python `str.strip()`: remove leading and trailing whitespace. -/
def pyStrip (s : String) : String :=
  String.mk (((s.data.dropWhile isPySpace).reverse.dropWhile isPySpace).reverse)

/-- `"=" * 60`, the banner separator line. -/
def eqBar : String := String.mk (List.replicate 60 '=')

/-- One line printed to standard output.  Lines with no variable part are
`lit`; lines interpolating a value get their own constructor, with the
exact printed text recovered by `Line.render`. -/
inductive Line where
  | lit (s : String)
  | connecting (uri : String)
  | deleteWarning (uri : String)
  | foundCount (n : Nat)
  | foundItem (name : String)
  | droppedAck (name : String)
  | allDropped (db : String)
  | error (msg : String)
  | emptyDb
  | closed
  | cancelled
deriving DecidableEq

/-- The exact text of each printed line, as in reset_db.py. -/
def Line.render : Line → String
  | .lit s => s
  | .connecting uri => "\n📡 Connecting to MongoDB: " ++ uri
  | .deleteWarning uri => "\nThis will DELETE ALL DATA from: " ++ uri
  | .foundCount n => "\n📋 Found " ++ toString n ++ " collection(s):"
  | .foundItem name => "   - " ++ name
  | .droppedAck name => "   ✅ Dropped: " ++ name
  | .allDropped db => "\nAll collections in " ++ "'" ++ db ++ "'" ++ " have been dropped."
  | .error msg => "\n❌ Error: " ++ msg
  | .emptyDb => "\n📭 Database is already empty. No collections to drop."
  | .closed => "\n📴 MongoDB connection closed."
  | .cancelled => "\n❌ Operation cancelled."

/-- Observable events of a run: printed lines, the interactive prompt,
and the driver operations the script issues. -/
inductive Event where
  | out (l : Line)
  | promptInput (prompt : String)
  | connect (uri : String)
  | ping
  | listCollections
  | dropCollection (name : String)
  | closeConn
deriving DecidableEq

/-- The database driver, as an environment: whether each operation
raises (with which message), and the collection names the listing call
returns when it succeeds. -/
structure DBEnv where
  connectErr : Option String
  pingErr : Option String
  listErr : Option String
  collections : List String
  dropErr : String → Option String

/-- The warning banner and prompt of `confirm_reset`, in print order. -/
def confirmTrace (uri : String) : List Event :=
  [Event.out (Line.lit ("\n" ++ eqBar)),
   Event.out (Line.lit "⚠️  WARNING: DATABASE RESET ⚠️"),
   Event.out (Line.lit eqBar),
   Event.out (Line.deleteWarning uri),
   Event.out (Line.lit "\nThe following collections will be dropped:"),
   Event.out (Line.lit "  - users"),
   Event.out (Line.lit "  - courses"),
   Event.out (Line.lit "  - assignments"),
   Event.out (Line.lit "  - submissions"),
   Event.out (Line.lit "  - enrollments"),
   Event.out (Line.lit "  - messages"),
   Event.out (Line.lit "  - notifications"),
   Event.out (Line.lit "  - And any other collections in the database"),
   Event.out (Line.lit ("\n" ++ eqBar)),
   Event.promptInput "\nAre you sure you want to proceed? Type 'YES' to confirm: "]

/-- `confirm_reset`: print the warning, read a response, and accept
exactly when `response.strip() == 'YES'`. -/
def confirmReset (uri response : String) : Bool × List Event :=
  (decide (pyStrip response = "YES"), confirmTrace uri)

/-- The `finally` block when `client` is in scope: `client.close()` and
its confirmation line. -/
def closeTrace : List Event :=
  [Event.closeConn, Event.out Line.closed]

/-- The drop loop of `reset_database`: drop each collection in order,
acknowledging each drop, stopping at the first drop that raises.
Returns the events of the loop and the raised message, if any. -/
def dropLoop (env : DBEnv) : List String → List Event × Option String
  | [] => ([], none)
  | c :: rest =>
    match env.dropErr c with
    | some e => ([Event.dropCollection c], some e)
    | none =>
      (Event.dropCollection c :: Event.out (Line.droppedAck c) :: (dropLoop env rest).1,
       (dropLoop env rest).2)

/-- The message of the first drop in the list that raises, if any. -/
def firstDropErr (env : DBEnv) : List String → Option String
  | [] => none
  | c :: rest =>
    match env.dropErr c with
    | some e => some e
    | none => firstDropErr env rest

/-- Events up to and including the "Dropping collections..." header, for
a run that found a non-empty collection list. -/
def preDropTrace (uri : String) (colls : List String) : List Event :=
  [Event.out (Line.connecting uri), Event.connect uri, Event.ping,
   Event.out (Line.lit "✅ Successfully connected to MongoDB!"),
   Event.listCollections,
   Event.out (Line.foundCount colls.length)]
  ++ colls.map (fun x => Event.out (Line.foundItem x))
  ++ [Event.out (Line.lit "\n🗑️  Dropping collections...")]

/-- After the drop loop: either the error line of the raised message, or
the success banner. -/
def afterDropTrace (uri : String) : Option String → List Event
  | some e => [Event.out (Line.error e)]
  | none =>
    [Event.out (Line.lit ("\n" ++ eqBar)),
     Event.out (Line.lit "✅ DATABASE RESET COMPLETE!"),
     Event.out (Line.lit eqBar),
     Event.out (Line.allDropped (dbNameOf uri)),
     Event.out (Line.lit "You can now restart your application with a fresh database.")]

/-- `reset_database`: connect, ping, list, drop each collection, with a
single top-level exception handler turning any raised error into a
printed message and `False`, and a `finally` block that closes the
connection whenever the `client` variable was assigned (that is,
whenever the connect call itself did not raise). -/
def resetDatabase (uri : String) (env : DBEnv) : Bool × List Event :=
  match env.connectErr with
  | some e =>
    (false, [Event.out (Line.connecting uri), Event.connect uri,
             Event.out (Line.error e)])
  | none =>
    match env.pingErr with
    | some e =>
      (false, [Event.out (Line.connecting uri), Event.connect uri, Event.ping,
               Event.out (Line.error e)] ++ closeTrace)
    | none =>
      match env.listErr with
      | some e =>
        (false, [Event.out (Line.connecting uri), Event.connect uri, Event.ping,
                 Event.out (Line.lit "✅ Successfully connected to MongoDB!"),
                 Event.listCollections,
                 Event.out (Line.error e)] ++ closeTrace)
      | none =>
        match env.collections with
        | [] =>
          (true, [Event.out (Line.connecting uri), Event.connect uri, Event.ping,
                  Event.out (Line.lit "✅ Successfully connected to MongoDB!"),
                  Event.listCollections,
                  Event.out Line.emptyDb] ++ closeTrace)
        | c :: cs =>
          ((dropLoop env (c :: cs)).2.isNone,
           preDropTrace uri (c :: cs)
             ++ (dropLoop env (c :: cs)).1
             ++ afterDropTrace uri (dropLoop env (c :: cs)).2
             ++ closeTrace)

/-- `'--force' in sys.argv or '-f' in sys.argv`. -/
def isForce (argv : List String) : Bool :=
  argv.contains "--force" || argv.contains "-f"

/-- The title banner printed by `main`. -/
def bannerTrace : List Event :=
  [Event.out (Line.lit ("\n" ++ eqBar)),
   Event.out (Line.lit "     EDU-RESOURCE DATABASE RESET UTILITY"),
   Event.out (Line.lit eqBar)]

/-- `main` (as `mainRun`): print the banner; unless forced, prompt for confirmation and
cancel (exit 0) on anything but `YES`; otherwise run the reset and exit
0 on success, 1 on failure. -/
def mainRun (argv : List String) (uri response : String) (env : DBEnv) :
    Nat × List Event :=
  if isForce argv then
    ((if (resetDatabase uri env).1 then 0 else 1),
     bannerTrace ++ (resetDatabase uri env).2)
  else if (confirmReset uri response).1 then
    ((if (resetDatabase uri env).1 then 0 else 1),
     bannerTrace ++ (confirmReset uri response).2 ++ (resetDatabase uri env).2)
  else
    (0, bannerTrace ++ (confirmReset uri response).2 ++ [Event.out Line.cancelled])

/-- Whether some driver operation raises in the run of `reset_database`
over this environment. -/
def runRaises (env : DBEnv) : Bool :=
  env.connectErr.isSome || env.pingErr.isSome || env.listErr.isSome ||
    (firstDropErr env env.collections).isSome

/-- Names of collections on which a drop call was issued, in order. -/
def dropsOf (t : List Event) : List String :=
  t.filterMap fun e =>
    match e with
    | Event.dropCollection c => some c
    | _ => none

/-- Names acknowledged by a "Dropped:" line, in order. -/
def acksOf (t : List Event) : List String :=
  t.filterMap fun e =>
    match e with
    | Event.out (Line.droppedAck c) => some c
    | _ => none

/-- Messages printed by the top-level error handler, in order. -/
def errorsOf (t : List Event) : List String :=
  t.filterMap fun e =>
    match e with
    | Event.out (Line.error m) => some m
    | _ => none

/-- URIs on which a connect call was issued, in order. -/
def connectsOf (t : List Event) : List String :=
  t.filterMap fun e =>
    match e with
    | Event.connect u => some u
    | _ => none

/-- How many times the connection was closed. -/
def closeCount (t : List Event) : Nat :=
  (t.filter fun e =>
    match e with
    | Event.closeConn => true
    | _ => false).length

/-- How many "connection closed" confirmation lines were printed. -/
def closedLineCount (t : List Event) : Nat :=
  (t.filter fun e =>
    match e with
    | Event.out Line.closed => true
    | _ => false).length

/-- How many interactive prompts were presented. -/
def promptCount (t : List Event) : Nat :=
  (t.filter fun e =>
    match e with
    | Event.promptInput _ => true
    | _ => false).length

/-- The events of a fully successful drop loop over these names. -/
def ackList : List String → List Event
  | [] => []
  | c :: rest =>
    Event.dropCollection c :: Event.out (Line.droppedAck c) :: ackList rest

/-! ### Basic facts about the trace extractors -/

theorem dropsOf_append (s t : List Event) :
    dropsOf (s ++ t) = dropsOf s ++ dropsOf t :=
  List.filterMap_append s t _

theorem acksOf_append (s t : List Event) :
    acksOf (s ++ t) = acksOf s ++ acksOf t :=
  List.filterMap_append s t _

theorem errorsOf_append (s t : List Event) :
    errorsOf (s ++ t) = errorsOf s ++ errorsOf t :=
  List.filterMap_append s t _

theorem connectsOf_append (s t : List Event) :
    connectsOf (s ++ t) = connectsOf s ++ connectsOf t :=
  List.filterMap_append s t _

theorem closeCount_append (s t : List Event) :
    closeCount (s ++ t) = closeCount s + closeCount t := by
  simp [closeCount, List.filter_append]

theorem closedLineCount_append (s t : List Event) :
    closedLineCount (s ++ t) = closedLineCount s + closedLineCount t := by
  simp [closedLineCount, List.filter_append]

theorem promptCount_append (s t : List Event) :
    promptCount (s ++ t) = promptCount s + promptCount t := by
  simp [promptCount, List.filter_append]

theorem dropsOf_map_foundItem (l : List String) :
    dropsOf (l.map fun x => Event.out (Line.foundItem x)) = [] := by
  induction l with
  | nil => rfl
  | cons c cs ih => simp [dropsOf, List.filterMap_cons, ih]

theorem acksOf_map_foundItem (l : List String) :
    acksOf (l.map fun x => Event.out (Line.foundItem x)) = [] := by
  induction l with
  | nil => rfl
  | cons c cs ih => simp [acksOf, List.filterMap_cons, ih]

theorem errorsOf_map_foundItem (l : List String) :
    errorsOf (l.map fun x => Event.out (Line.foundItem x)) = [] := by
  induction l with
  | nil => rfl
  | cons c cs ih => simp [errorsOf, List.filterMap_cons, ih]

theorem connectsOf_map_foundItem (l : List String) :
    connectsOf (l.map fun x => Event.out (Line.foundItem x)) = [] := by
  induction l with
  | nil => rfl
  | cons c cs ih => simp [connectsOf, List.filterMap_cons, ih]

theorem closeCount_map_foundItem (l : List String) :
    closeCount (l.map fun x => Event.out (Line.foundItem x)) = 0 := by
  induction l with
  | nil => rfl
  | cons c cs ih => simp [closeCount, List.filter_cons, ih]

theorem closedLineCount_map_foundItem (l : List String) :
    closedLineCount (l.map fun x => Event.out (Line.foundItem x)) = 0 := by
  induction l with
  | nil => rfl
  | cons c cs ih => simp [closedLineCount, List.filter_cons, ih]

theorem promptCount_map_foundItem (l : List String) :
    promptCount (l.map fun x => Event.out (Line.foundItem x)) = 0 := by
  induction l with
  | nil => rfl
  | cons c cs ih => simp [promptCount, List.filter_cons, ih]

/-! ### Facts about the drop loop -/

theorem dropLoop_snd (env : DBEnv) (l : List String) :
    (dropLoop env l).2 = firstDropErr env l := by
  induction l with
  | nil => rfl
  | cons c cs ih =>
    simp only [dropLoop, firstDropErr]
    cases env.dropErr c with
    | some e => rfl
    | none => simpa using ih

theorem dropLoop_ok (env : DBEnv) (l : List String)
    (h : ∀ x ∈ l, env.dropErr x = none) :
    dropLoop env l = (ackList l, none) := by
  induction l with
  | nil => rfl
  | cons c cs ih =>
    have hc : env.dropErr c = none := h c (List.mem_cons_self c cs)
    have ihr := ih fun x hx => h x (List.mem_cons_of_mem c hx)
    simp [dropLoop, hc, ihr, ackList]

theorem dropLoop_err (env : DBEnv) (e : String) (c : String)
    (pre post : List String)
    (hpre : ∀ x ∈ pre, env.dropErr x = none)
    (hc : env.dropErr c = some e) :
    dropLoop env (pre ++ c :: post)
      = (ackList pre ++ [Event.dropCollection c], some e) := by
  induction pre with
  | nil => simp [dropLoop, hc, ackList]
  | cons p ps ih =>
    have hp : env.dropErr p = none := hpre p (List.mem_cons_self p ps)
    have ihr := ih fun x hx => hpre x (List.mem_cons_of_mem p hx)
    simp [dropLoop, hp, ihr, ackList]

theorem dropsOf_ackList (l : List String) : dropsOf (ackList l) = l := by
  induction l with
  | nil => rfl
  | cons c cs ih => simpa [ackList, dropsOf, List.filterMap_cons] using ih

theorem acksOf_ackList (l : List String) : acksOf (ackList l) = l := by
  induction l with
  | nil => rfl
  | cons c cs ih => simpa [ackList, acksOf, List.filterMap_cons] using ih

theorem errorsOf_ackList (l : List String) : errorsOf (ackList l) = [] := by
  induction l with
  | nil => rfl
  | cons c cs ih => simpa [ackList, errorsOf, List.filterMap_cons] using ih

theorem connectsOf_ackList (l : List String) : connectsOf (ackList l) = [] := by
  induction l with
  | nil => rfl
  | cons c cs ih => simpa [ackList, connectsOf, List.filterMap_cons] using ih

theorem closeCount_ackList (l : List String) : closeCount (ackList l) = 0 := by
  induction l with
  | nil => rfl
  | cons c cs ih => simpa [ackList, closeCount, List.filter_cons] using ih

theorem closedLineCount_ackList (l : List String) :
    closedLineCount (ackList l) = 0 := by
  induction l with
  | nil => rfl
  | cons c cs ih => simpa [ackList, closedLineCount, List.filter_cons] using ih

theorem promptCount_ackList (l : List String) : promptCount (ackList l) = 0 := by
  induction l with
  | nil => rfl
  | cons c cs ih => simpa [ackList, promptCount, List.filter_cons] using ih

theorem errorsOf_dropLoop (env : DBEnv) (l : List String) :
    errorsOf (dropLoop env l).1 = [] := by
  induction l with
  | nil => rfl
  | cons c cs ih =>
    simp only [dropLoop]
    cases env.dropErr c with
    | some e => rfl
    | none => simpa [errorsOf, List.filterMap_cons] using ih

theorem closeCount_dropLoop (env : DBEnv) (l : List String) :
    closeCount (dropLoop env l).1 = 0 := by
  induction l with
  | nil => rfl
  | cons c cs ih =>
    simp only [dropLoop]
    cases env.dropErr c with
    | some e => rfl
    | none => simpa [closeCount, List.filter_cons] using ih

theorem closedLineCount_dropLoop (env : DBEnv) (l : List String) :
    closedLineCount (dropLoop env l).1 = 0 := by
  induction l with
  | nil => rfl
  | cons c cs ih =>
    simp only [dropLoop]
    cases env.dropErr c with
    | some e => rfl
    | none => simpa [closedLineCount, List.filter_cons] using ih

theorem promptCount_dropLoop (env : DBEnv) (l : List String) :
    promptCount (dropLoop env l).1 = 0 := by
  induction l with
  | nil => rfl
  | cons c cs ih =>
    simp only [dropLoop]
    cases env.dropErr c with
    | some e => rfl
    | none => simpa [promptCount, List.filter_cons] using ih

/-! ### Extractors over the fixed trace pieces -/

theorem dropsOf_preDrop (uri : String) (colls : List String) :
    dropsOf (preDropTrace uri colls) = [] := by
  simp [preDropTrace, dropsOf_append, dropsOf_map_foundItem, dropsOf]

theorem acksOf_preDrop (uri : String) (colls : List String) :
    acksOf (preDropTrace uri colls) = [] := by
  simp [preDropTrace, acksOf_append, acksOf_map_foundItem, acksOf]

theorem errorsOf_preDrop (uri : String) (colls : List String) :
    errorsOf (preDropTrace uri colls) = [] := by
  simp [preDropTrace, errorsOf_append, errorsOf_map_foundItem, errorsOf]

theorem connectsOf_preDrop (uri : String) (colls : List String) :
    connectsOf (preDropTrace uri colls) = [uri] := by
  simp [preDropTrace, connectsOf_append, connectsOf_map_foundItem, connectsOf]

theorem closeCount_preDrop (uri : String) (colls : List String) :
    closeCount (preDropTrace uri colls) = 0 := by
  simp [preDropTrace, closeCount_append, closeCount_map_foundItem, closeCount]

theorem closedLineCount_preDrop (uri : String) (colls : List String) :
    closedLineCount (preDropTrace uri colls) = 0 := by
  simp [preDropTrace, closedLineCount_append, closedLineCount_map_foundItem,
    closedLineCount]

theorem promptCount_preDrop (uri : String) (colls : List String) :
    promptCount (preDropTrace uri colls) = 0 := by
  simp [preDropTrace, promptCount_append, promptCount_map_foundItem, promptCount]

theorem dropsOf_afterDrop (uri : String) (o : Option String) :
    dropsOf (afterDropTrace uri o) = [] := by
  cases o <;> simp [afterDropTrace, dropsOf]

theorem acksOf_afterDrop (uri : String) (o : Option String) :
    acksOf (afterDropTrace uri o) = [] := by
  cases o <;> simp [afterDropTrace, acksOf]

theorem errorsOf_afterDrop (uri : String) (o : Option String) :
    errorsOf (afterDropTrace uri o) = o.toList := by
  cases o <;> simp [afterDropTrace, errorsOf, Option.toList]

theorem connectsOf_afterDrop (uri : String) (o : Option String) :
    connectsOf (afterDropTrace uri o) = [] := by
  cases o <;> simp [afterDropTrace, connectsOf]

theorem closeCount_afterDrop (uri : String) (o : Option String) :
    closeCount (afterDropTrace uri o) = 0 := by
  cases o <;> simp [afterDropTrace, closeCount]

theorem closedLineCount_afterDrop (uri : String) (o : Option String) :
    closedLineCount (afterDropTrace uri o) = 0 := by
  cases o <;> simp [afterDropTrace, closedLineCount]

theorem promptCount_afterDrop (uri : String) (o : Option String) :
    promptCount (afterDropTrace uri o) = 0 := by
  cases o <;> simp [afterDropTrace, promptCount]

/-! ### Extractors over the close step -/

theorem dropsOf_closeTrace : dropsOf closeTrace = [] := rfl

theorem acksOf_closeTrace : acksOf closeTrace = [] := rfl

theorem errorsOf_closeTrace : errorsOf closeTrace = [] := rfl

theorem connectsOf_closeTrace : connectsOf closeTrace = [] := rfl

theorem closeCount_closeTrace : closeCount closeTrace = 1 := rfl

theorem closedLineCount_closeTrace : closedLineCount closeTrace = 1 := rfl

theorem promptCount_closeTrace : promptCount closeTrace = 0 := rfl

/-! ### Structural facts about a full `reset_database` run -/

theorem reset_fst (uri : String) (env : DBEnv) :
    (resetDatabase uri env).1 = !(runRaises env) := by
  obtain ⟨ce, pe, le, co, de⟩ := env
  cases ce with
  | some e => simp [resetDatabase, runRaises]
  | none =>
    cases pe with
    | some e => simp [resetDatabase, runRaises]
    | none =>
      cases le with
      | some e => simp [resetDatabase, runRaises]
      | none =>
        cases co with
        | nil => simp [resetDatabase, runRaises, firstDropErr]
        | cons c cs =>
          cases h : (dropLoop ⟨none, none, none, c :: cs, de⟩ (c :: cs)).2 with
          | none =>
            have hf : firstDropErr ⟨none, none, none, c :: cs, de⟩ (c :: cs) = none :=
              (dropLoop_snd _ _).symm.trans h
            simp [resetDatabase, runRaises, h, hf]
          | some e =>
            have hf : firstDropErr ⟨none, none, none, c :: cs, de⟩ (c :: cs) = some e :=
              (dropLoop_snd _ _).symm.trans h
            simp [resetDatabase, runRaises, h, hf]

theorem errorsOf_reset_length (uri : String) (env : DBEnv) :
    (errorsOf (resetDatabase uri env).2).length
      = if runRaises env = true then 1 else 0 := by
  obtain ⟨ce, pe, le, co, de⟩ := env
  cases ce with
  | some e => simp [resetDatabase, runRaises, errorsOf]
  | none =>
    cases pe with
    | some e =>
      simp [resetDatabase, runRaises, errorsOf_append, closeTrace, errorsOf]
    | none =>
      cases le with
      | some e =>
        simp [resetDatabase, runRaises, errorsOf_append, closeTrace, errorsOf]
      | none =>
        cases co with
        | nil =>
          simp [resetDatabase, runRaises, errorsOf_append, closeTrace, errorsOf,
            firstDropErr]
        | cons c cs =>
          cases h : (dropLoop ⟨none, none, none, c :: cs, de⟩ (c :: cs)).2 with
          | none =>
            have hf : firstDropErr ⟨none, none, none, c :: cs, de⟩ (c :: cs) = none :=
              (dropLoop_snd _ _).symm.trans h
            simp only [resetDatabase, runRaises, h, hf, errorsOf_append,
              errorsOf_preDrop, errorsOf_dropLoop, errorsOf_afterDrop,
              errorsOf_closeTrace]
            simp
          | some e =>
            have hf : firstDropErr ⟨none, none, none, c :: cs, de⟩ (c :: cs) = some e :=
              (dropLoop_snd _ _).symm.trans h
            simp only [resetDatabase, runRaises, h, hf, errorsOf_append,
              errorsOf_preDrop, errorsOf_dropLoop, errorsOf_afterDrop,
              errorsOf_closeTrace]
            simp [Option.toList]

theorem closeCount_reset (uri : String) (env : DBEnv) :
    closeCount (resetDatabase uri env).2
      = if env.connectErr = none then 1 else 0 := by
  obtain ⟨ce, pe, le, co, de⟩ := env
  cases ce with
  | some e => simp [resetDatabase, closeCount]
  | none =>
    cases pe with
    | some e => simp [resetDatabase, closeCount_append, closeTrace, closeCount]
    | none =>
      cases le with
      | some e => simp [resetDatabase, closeCount_append, closeTrace, closeCount]
      | none =>
        cases co with
        | nil => simp [resetDatabase, closeCount_append, closeTrace, closeCount]
        | cons c cs =>
          simp only [resetDatabase, closeCount_append, closeCount_preDrop,
            closeCount_dropLoop, closeCount_afterDrop, closeCount_closeTrace]
          simp

theorem closedLineCount_reset (uri : String) (env : DBEnv) :
    closedLineCount (resetDatabase uri env).2
      = if env.connectErr = none then 1 else 0 := by
  obtain ⟨ce, pe, le, co, de⟩ := env
  cases ce with
  | some e => simp [resetDatabase, closedLineCount]
  | none =>
    cases pe with
    | some e =>
      simp [resetDatabase, closedLineCount_append, closeTrace, closedLineCount]
    | none =>
      cases le with
      | some e =>
        simp [resetDatabase, closedLineCount_append, closeTrace, closedLineCount]
      | none =>
        cases co with
        | nil =>
          simp [resetDatabase, closedLineCount_append, closeTrace, closedLineCount]
        | cons c cs =>
          simp only [resetDatabase, closedLineCount_append, closedLineCount_preDrop,
            closedLineCount_dropLoop, closedLineCount_afterDrop,
            closedLineCount_closeTrace]
          simp

theorem promptCount_reset (uri : String) (env : DBEnv) :
    promptCount (resetDatabase uri env).2 = 0 := by
  obtain ⟨ce, pe, le, co, de⟩ := env
  cases ce with
  | some e => simp [resetDatabase, promptCount]
  | none =>
    cases pe with
    | some e => simp [resetDatabase, promptCount_append, closeTrace, promptCount]
    | none =>
      cases le with
      | some e => simp [resetDatabase, promptCount_append, closeTrace, promptCount]
      | none =>
        cases co with
        | nil => simp [resetDatabase, promptCount_append, closeTrace, promptCount]
        | cons c cs =>
          simp only [resetDatabase, promptCount_append, promptCount_preDrop,
            promptCount_dropLoop, promptCount_afterDrop, promptCount_closeTrace]

/-! ### Extractors over banner and confirmation traces -/

theorem dropsOf_banner : dropsOf bannerTrace = [] := rfl

theorem connectsOf_banner : connectsOf bannerTrace = [] := rfl

theorem errorsOf_banner : errorsOf bannerTrace = [] := rfl

theorem closeCount_banner : closeCount bannerTrace = 0 := rfl

theorem closedLineCount_banner : closedLineCount bannerTrace = 0 := rfl

theorem promptCount_banner : promptCount bannerTrace = 0 := rfl

theorem dropsOf_confirmTrace (uri : String) : dropsOf (confirmTrace uri) = [] := rfl

theorem connectsOf_confirmTrace (uri : String) :
    connectsOf (confirmTrace uri) = [] := rfl

theorem errorsOf_confirmTrace (uri : String) :
    errorsOf (confirmTrace uri) = [] := rfl

theorem closeCount_confirmTrace (uri : String) :
    closeCount (confirmTrace uri) = 0 := rfl

theorem closedLineCount_confirmTrace (uri : String) :
    closedLineCount (confirmTrace uri) = 0 := rfl

theorem promptCount_confirmTrace (uri : String) :
    promptCount (confirmTrace uri) = 1 := rfl

/-- Helper: whenever the run reaches `reset_database` (force flag, or a
confirmation that strips to YES), the exit code is 0 on success and 1 on
failure. -/
theorem mainRun_exit_of_run (argv : List String) (uri response : String)
    (env : DBEnv) (hrun : isForce argv = true ∨ pyStrip response = "YES") :
    (mainRun argv uri response env).1
      = if (resetDatabase uri env).1 then 0 else 1 := by
  cases hf : isForce argv
  · rcases hrun with hfc | hy
    · rw [hf] at hfc; simp at hfc
    · simp [mainRun, hf, confirmReset, hy]
  · simp [mainRun, hf]

/-- C1: in a run without the force flag, the reset routine is entered
exactly when the typed response, stripped of surrounding whitespace,
equals the case-sensitive string YES; on any other input the process
exits with code 0, prints the cancellation line, and issues no connect
and no drop call, leaving the database unmodified. -/
theorem confirm_gate_requires_yes (argv : List String) (uri response : String)
    (env : DBEnv) (hnf : isForce argv = false) :
    if pyStrip response = "YES" then
      (mainRun argv uri response env).2
        = bannerTrace ++ confirmTrace uri ++ (resetDatabase uri env).2
    else
      (mainRun argv uri response env).1 = 0
      ∧ (mainRun argv uri response env).2
          = bannerTrace ++ confirmTrace uri ++ [Event.out Line.cancelled]
      ∧ dropsOf (mainRun argv uri response env).2 = []
      ∧ connectsOf (mainRun argv uri response env).2 = [] := by
  by_cases h : pyStrip response = "YES"
  · simp [mainRun, hnf, confirmReset, h]
  · simp only [mainRun, hnf, confirmReset, h]
    simp [h, dropsOf, connectsOf, bannerTrace, confirmTrace]

/-- Witness for C1: the default URI, no force flag, response "no". -/
theorem confirm_gate_requires_yes_witness :
    isForce ["reset_db.py"] = false
    ∧ (if pyStrip "no" = "YES" then
        (mainRun ["reset_db.py"] "mongodb://localhost:27017/edu-resource" "no"
            ⟨none, none, none, [], fun _ => none⟩).2
          = bannerTrace ++ confirmTrace "mongodb://localhost:27017/edu-resource"
            ++ (resetDatabase "mongodb://localhost:27017/edu-resource"
                ⟨none, none, none, [], fun _ => none⟩).2
      else
        (mainRun ["reset_db.py"] "mongodb://localhost:27017/edu-resource" "no"
            ⟨none, none, none, [], fun _ => none⟩).1 = 0
        ∧ (mainRun ["reset_db.py"] "mongodb://localhost:27017/edu-resource" "no"
              ⟨none, none, none, [], fun _ => none⟩).2
            = bannerTrace ++ confirmTrace "mongodb://localhost:27017/edu-resource"
              ++ [Event.out Line.cancelled]
        ∧ dropsOf (mainRun ["reset_db.py"] "mongodb://localhost:27017/edu-resource"
              "no" ⟨none, none, none, [], fun _ => none⟩).2 = []
        ∧ connectsOf (mainRun ["reset_db.py"] "mongodb://localhost:27017/edu-resource"
              "no" ⟨none, none, none, [], fun _ => none⟩).2 = []) :=
  ⟨by decide,
   confirm_gate_requires_yes ["reset_db.py"] "mongodb://localhost:27017/edu-resource"
     "no" ⟨none, none, none, [], fun _ => none⟩ (by decide)⟩

/-- C5: with the force flag, the confirmation prompt is never presented
and the run proceeds directly from the banner to the reset routine. -/
theorem force_skips_confirmation (argv : List String) (uri response : String)
    (env : DBEnv) (hf : isForce argv = true) :
    (mainRun argv uri response env).2 = bannerTrace ++ (resetDatabase uri env).2
    ∧ promptCount (mainRun argv uri response env).2 = 0 := by
  constructor
  · simp [mainRun, hf]
  · simp only [mainRun, hf, if_true]
    rw [promptCount_append, promptCount_banner, promptCount_reset]

/-- Witness for C5: forced run over an empty database. -/
theorem force_skips_confirmation_witness :
    isForce ["--force"] = true
    ∧ ((mainRun ["--force"] "mongodb://localhost:27017/edu-resource" ""
          ⟨none, none, none, [], fun _ => none⟩).2
        = bannerTrace ++ (resetDatabase "mongodb://localhost:27017/edu-resource"
            ⟨none, none, none, [], fun _ => none⟩).2
      ∧ promptCount (mainRun ["--force"] "mongodb://localhost:27017/edu-resource" ""
          ⟨none, none, none, [], fun _ => none⟩).2 = 0) :=
  ⟨by decide,
   force_skips_confirmation ["--force"] "mongodb://localhost:27017/edu-resource" ""
     ⟨none, none, none, [], fun _ => none⟩ (by decide)⟩

/-- C10: the force behaviour is triggered exactly when the literal
string "--force" or "-f" occurs among the command-line arguments, the
prompt is skipped exactly in that case, and two argument vectors that
agree on that membership produce identical behaviour — every other
argument is ignored and no argument ever causes a parsing error. -/
theorem force_flag_membership (argv argv2 : List String) (uri response : String)
    (env : DBEnv) (h : isForce argv = isForce argv2) :
    (isForce argv = true ↔ ("--force" ∈ argv ∨ "-f" ∈ argv))
    ∧ (promptCount (mainRun argv uri response env).2 = 0 ↔ isForce argv = true)
    ∧ mainRun argv uri response env = mainRun argv2 uri response env := by
  refine ⟨by simp [isForce, List.contains], ?_, by simp [mainRun, h]⟩
  cases hf : isForce argv
  · by_cases hy : pyStrip response = "YES"
    · simp only [mainRun, hf, confirmReset, hy]
      rw [if_neg (by simp), if_pos (by simp [hy])]
      rw [promptCount_append, promptCount_append, promptCount_banner,
        promptCount_confirmTrace, promptCount_reset]
      simp
    · simp only [mainRun, hf, confirmReset, hy]
      rw [if_neg (by simp), if_neg (by simp [hy])]
      rw [promptCount_append, promptCount_append, promptCount_banner,
        promptCount_confirmTrace]
      simp [promptCount]
  · simp only [mainRun, hf, if_true]
    rw [promptCount_append, promptCount_banner, promptCount_reset]
    simp

/-- Witness for C10: a forced vector and a vector with an extra ignored
argument and the short flag. -/
theorem force_flag_membership_witness :
    isForce ["--force"] = isForce ["reset_db.py", "extra", "-f"]
    ∧ ((isForce ["--force"] = true
          ↔ ("--force" ∈ ["--force"] ∨ "-f" ∈ ["--force"]))
      ∧ (promptCount (mainRun ["--force"] "mongodb://localhost:27017/edu-resource"
            "" ⟨none, none, none, [], fun _ => none⟩).2 = 0
          ↔ isForce ["--force"] = true)
      ∧ mainRun ["--force"] "mongodb://localhost:27017/edu-resource" ""
            ⟨none, none, none, [], fun _ => none⟩
          = mainRun ["reset_db.py", "extra", "-f"]
            "mongodb://localhost:27017/edu-resource" ""
            ⟨none, none, none, [], fun _ => none⟩) :=
  ⟨by decide,
   force_flag_membership ["--force"] ["reset_db.py", "extra", "-f"]
     "mongodb://localhost:27017/edu-resource" ""
     ⟨none, none, none, [], fun _ => none⟩ (by decide)⟩

/-- C3: every raised driver error is caught exactly once at the top
level of the reset routine (exactly one printed error line, whose text
carries the error prefix), is converted into a boolean failure result,
and makes the process exit with code 1, while a successful or
user-cancelled run exits with code 0. -/
theorem errors_caught_once_top_level (uri : String) (env : DBEnv)
    (argv : List String) (response m : String) :
    (resetDatabase uri env).1 = !(runRaises env)
    ∧ (errorsOf (resetDatabase uri env).2).length
        = (if runRaises env = true then 1 else 0)
    ∧ (mainRun argv uri response env).1
        = (if isForce argv = true ∨ pyStrip response = "YES" then
            (if runRaises env = true then 1 else 0) else 0)
    ∧ Line.render (Line.error m) = "\n❌ Error: " ++ m := by
  refine ⟨reset_fst uri env, errorsOf_reset_length uri env, ?_, rfl⟩
  cases hf : isForce argv
  · by_cases hy : pyStrip response = "YES"
    · rw [mainRun_exit_of_run argv uri response env (Or.inr hy), reset_fst]
      simp [hy]
      cases runRaises env <;> simp
    · simp [mainRun, hf, confirmReset, hy]
  · rw [mainRun_exit_of_run argv uri response env (Or.inl hf), reset_fst]
    simp [hf]
    cases runRaises env <;> simp

/-- C4 (amended): the connection-close step runs exactly once, printing
its confirmation line, in every reset run whose connect call itself
succeeded — whatever happened to ping, list or drop — but it does not
run when the connect call raises (and a run cancelled at the prompt
never opens a connection at all). -/
theorem close_once_when_connected (uri : String) (env : DBEnv)
    (argv : List String) (response : String) :
    closeCount (resetDatabase uri env).2
      = (if env.connectErr = none then 1 else 0)
    ∧ closedLineCount (resetDatabase uri env).2
      = (if env.connectErr = none then 1 else 0)
    ∧ closeCount (mainRun argv uri response env).2
      = (if (isForce argv = true ∨ pyStrip response = "YES")
            ∧ env.connectErr = none then 1 else 0) := by
  refine ⟨closeCount_reset uri env, closedLineCount_reset uri env, ?_⟩
  cases hf : isForce argv
  · by_cases hy : pyStrip response = "YES"
    · simp only [mainRun, hf, confirmReset, hy]
      rw [if_neg (by simp)]
      rw [if_pos (by simp [hy])]
      rw [closeCount_append, closeCount_append, closeCount_banner,
        closeCount_confirmTrace, closeCount_reset]
      simp [hf, hy]
    · simp only [mainRun, hf, confirmReset, hy]
      rw [if_neg (by simp), if_neg (by simp [hy])]
      rw [closeCount_append, closeCount_append, closeCount_banner,
        closeCount_confirmTrace]
      simp [hf, hy, closeCount]
  · simp only [mainRun, hf, if_true]
    rw [closeCount_append, closeCount_banner, closeCount_reset]
    simp

/-- C4 counterexample: when the connect call itself raises (for example
on a malformed URI), the `client` variable was never assigned, the
`finally` guard fails, and the close step and its confirmation line do
not execute — the claim's "exactly once for every run" is false. -/
theorem close_skipped_when_connect_raises :
    closeCount (resetDatabase "mongodb://localhost:27017/edu-resource"
        ⟨some "invalid URI scheme", none, none, [], fun _ => none⟩).2 = 0
    ∧ closedLineCount (resetDatabase "mongodb://localhost:27017/edu-resource"
        ⟨some "invalid URI scheme", none, none, [], fun _ => none⟩).2 = 0 := by
  decide

/-- C6: when the listing call reports no collections, no drop call is
issued, the "already empty" line is printed, the reset routine returns
success, and the process exits with code 0. -/
theorem empty_db_nothing_to_do (uri : String) (env : DBEnv) (argv : List String)
    (response : String) (hc : env.connectErr = none) (hp : env.pingErr = none)
    (hl : env.listErr = none) (hco : env.collections = [])
    (hrun : isForce argv = true ∨ pyStrip response = "YES") :
    (resetDatabase uri env).1 = true
    ∧ dropsOf (resetDatabase uri env).2 = []
    ∧ Event.out Line.emptyDb ∈ (resetDatabase uri env).2
    ∧ (mainRun argv uri response env).1 = 0 := by
  have h1 : (resetDatabase uri env).1 = true := by
    simp [resetDatabase, hc, hp, hl, hco]
  refine ⟨h1, ?_, ?_, ?_⟩
  · simp [resetDatabase, hc, hp, hl, hco, dropsOf, closeTrace]
  · simp [resetDatabase, hc, hp, hl, hco, closeTrace]
  · rw [mainRun_exit_of_run argv uri response env hrun, h1]
    rfl

/-- Witness for C6: a forced run against an empty database. -/
theorem empty_db_nothing_to_do_witness :
    (⟨none, none, none, [], fun _ => none⟩ : DBEnv).connectErr = none
    ∧ (⟨none, none, none, [], fun _ => none⟩ : DBEnv).pingErr = none
    ∧ (⟨none, none, none, [], fun _ => none⟩ : DBEnv).listErr = none
    ∧ (⟨none, none, none, [], fun _ => none⟩ : DBEnv).collections = []
    ∧ (isForce ["--force"] = true ∨ pyStrip "" = "YES")
    ∧ ((resetDatabase "mongodb://localhost:27017/testdb"
          ⟨none, none, none, [], fun _ => none⟩).1 = true
      ∧ dropsOf (resetDatabase "mongodb://localhost:27017/testdb"
          ⟨none, none, none, [], fun _ => none⟩).2 = []
      ∧ Event.out Line.emptyDb ∈ (resetDatabase "mongodb://localhost:27017/testdb"
          ⟨none, none, none, [], fun _ => none⟩).2
      ∧ (mainRun ["--force"] "mongodb://localhost:27017/testdb" ""
          ⟨none, none, none, [], fun _ => none⟩).1 = 0) :=
  ⟨rfl, rfl, rfl, rfl, Or.inl (by decide),
   empty_db_nothing_to_do "mongodb://localhost:27017/testdb"
     ⟨none, none, none, [], fun _ => none⟩ ["--force"] "" rfl rfl rfl rfl
     (Or.inl (by decide))⟩

/-- C7: the administrative ping is issued right after the connect call
and before any listing or dropping; when the ping raises, the run prints
the error diagnostic, drops nothing, never lists, still closes the
connection (with its confirmation line), returns failure, and the
process exits with code 1. -/
theorem ping_fail_fast (uri : String) (env : DBEnv) (e : String)
    (argv : List String) (response : String)
    (hc : env.connectErr = none) (hp : env.pingErr = some e)
    (hrun : isForce argv = true ∨ pyStrip response = "YES") :
    (resetDatabase uri env).2
      = [Event.out (Line.connecting uri), Event.connect uri, Event.ping,
         Event.out (Line.error e)] ++ closeTrace
    ∧ (resetDatabase uri env).1 = false
    ∧ dropsOf (resetDatabase uri env).2 = []
    ∧ Event.listCollections ∉ (resetDatabase uri env).2
    ∧ errorsOf (resetDatabase uri env).2 = [e]
    ∧ closeCount (resetDatabase uri env).2 = 1
    ∧ closedLineCount (resetDatabase uri env).2 = 1
    ∧ (mainRun argv uri response env).1 = 1 := by
  have h1 : (resetDatabase uri env).1 = false := by
    simp [resetDatabase, hc, hp]
  refine ⟨?_, h1, ?_, ?_, ?_, ?_, ?_, ?_⟩
  · simp [resetDatabase, hc, hp]
  · simp [resetDatabase, hc, hp, dropsOf, closeTrace]
  · simp [resetDatabase, hc, hp, closeTrace]
  · simp [resetDatabase, hc, hp, errorsOf, closeTrace]
  · simp [resetDatabase, hc, hp, closeCount, closeTrace]
  · simp [resetDatabase, hc, hp, closedLineCount, closeTrace]
  · rw [mainRun_exit_of_run argv uri response env hrun, h1]
    rfl

/-- Witness for C7: a forced run whose ping raises. -/
theorem ping_fail_fast_witness :
    (⟨none, some "connection refused", none, [], fun _ => none⟩ : DBEnv).connectErr
        = none
    ∧ (⟨none, some "connection refused", none, [],
          fun _ => none⟩ : DBEnv).pingErr = some "connection refused"
    ∧ (isForce ["-f"] = true ∨ pyStrip "" = "YES")
    ∧ ((resetDatabase "mongodb://unreachable:27017/edu-resource"
          ⟨none, some "connection refused", none, [], fun _ => none⟩).2
        = [Event.out (Line.connecting "mongodb://unreachable:27017/edu-resource"),
           Event.connect "mongodb://unreachable:27017/edu-resource", Event.ping,
           Event.out (Line.error "connection refused")] ++ closeTrace
      ∧ (resetDatabase "mongodb://unreachable:27017/edu-resource"
          ⟨none, some "connection refused", none, [], fun _ => none⟩).1 = false
      ∧ dropsOf (resetDatabase "mongodb://unreachable:27017/edu-resource"
          ⟨none, some "connection refused", none, [], fun _ => none⟩).2 = []
      ∧ Event.listCollections ∉ (resetDatabase "mongodb://unreachable:27017/edu-resource"
          ⟨none, some "connection refused", none, [], fun _ => none⟩).2
      ∧ errorsOf (resetDatabase "mongodb://unreachable:27017/edu-resource"
          ⟨none, some "connection refused", none, [], fun _ => none⟩).2
          = ["connection refused"]
      ∧ closeCount (resetDatabase "mongodb://unreachable:27017/edu-resource"
          ⟨none, some "connection refused", none, [], fun _ => none⟩).2 = 1
      ∧ closedLineCount (resetDatabase "mongodb://unreachable:27017/edu-resource"
          ⟨none, some "connection refused", none, [], fun _ => none⟩).2 = 1
      ∧ (mainRun ["-f"] "mongodb://unreachable:27017/edu-resource" ""
          ⟨none, some "connection refused", none, [], fun _ => none⟩).1 = 1) :=
  ⟨rfl, rfl, Or.inl (by decide),
   ping_fail_fast "mongodb://unreachable:27017/edu-resource"
     ⟨none, some "connection refused", none, [], fun _ => none⟩
     "connection refused" ["-f"] "" rfl rfl (Or.inl (by decide))⟩

/-- C2 (amended): in a run where the database reports N collections
(N > 0) and no drop call raises, exactly N drop calls are issued, one
per discovered name and in the order returned by the listing call, and
each produces exactly one acknowledgment line, in the same order; when a
drop raises, the loop stops early and the trailing collections are
neither dropped nor acknowledged. -/
theorem drops_one_per_collection (uri : String) (env : DBEnv)
    (hc : env.connectErr = none) (hp : env.pingErr = none)
    (hl : env.listErr = none)
    (hd : ∀ x ∈ env.collections, env.dropErr x = none)
    (hne : env.collections ≠ []) :
    dropsOf (resetDatabase uri env).2 = env.collections
    ∧ acksOf (resetDatabase uri env).2 = env.collections
    ∧ Event.out (Line.foundCount env.collections.length)
        ∈ (resetDatabase uri env).2 := by
  rcases hcol : env.collections with _ | ⟨c, cs⟩
  · exact absurd hcol hne
  · have hdl : dropLoop env (c :: cs) = (ackList (c :: cs), none) :=
      dropLoop_ok env (c :: cs) (hcol ▸ hd)
    refine ⟨?_, ?_, ?_⟩
    · simp only [resetDatabase, hc, hp, hl, hcol, hdl]
      rw [dropsOf_append, dropsOf_append, dropsOf_append, dropsOf_preDrop,
        dropsOf_ackList, dropsOf_afterDrop, dropsOf_closeTrace]
      simp
    · simp only [resetDatabase, hc, hp, hl, hcol, hdl]
      rw [acksOf_append, acksOf_append, acksOf_append, acksOf_preDrop,
        acksOf_ackList, acksOf_afterDrop, acksOf_closeTrace]
      simp
    · simp only [resetDatabase, hc, hp, hl, hcol, hdl]
      simp [preDropTrace]

/-- Witness for C2 (amended): a forced run over two collections. -/
theorem drops_one_per_collection_witness :
    (⟨none, none, none, ["users", "courses"], fun _ => none⟩ : DBEnv).connectErr
        = none
    ∧ (⟨none, none, none, ["users", "courses"],
          fun _ => none⟩ : DBEnv).pingErr = none
    ∧ (⟨none, none, none, ["users", "courses"],
          fun _ => none⟩ : DBEnv).listErr = none
    ∧ (∀ x ∈ (⟨none, none, none, ["users", "courses"],
          fun _ => none⟩ : DBEnv).collections,
        (⟨none, none, none, ["users", "courses"],
            fun _ => none⟩ : DBEnv).dropErr x = none)
    ∧ (⟨none, none, none, ["users", "courses"],
          fun _ => none⟩ : DBEnv).collections ≠ []
    ∧ (dropsOf (resetDatabase "mongodb://localhost:27017/edu-resource"
          ⟨none, none, none, ["users", "courses"], fun _ => none⟩).2
        = (⟨none, none, none, ["users", "courses"],
            fun _ => none⟩ : DBEnv).collections
      ∧ acksOf (resetDatabase "mongodb://localhost:27017/edu-resource"
          ⟨none, none, none, ["users", "courses"], fun _ => none⟩).2
        = (⟨none, none, none, ["users", "courses"],
            fun _ => none⟩ : DBEnv).collections
      ∧ Event.out (Line.foundCount (⟨none, none, none, ["users", "courses"],
            fun _ => none⟩ : DBEnv).collections.length)
          ∈ (resetDatabase "mongodb://localhost:27017/edu-resource"
            ⟨none, none, none, ["users", "courses"], fun _ => none⟩).2) :=
  ⟨rfl, rfl, rfl, by decide, by decide,
   drops_one_per_collection "mongodb://localhost:27017/edu-resource"
     ⟨none, none, none, ["users", "courses"], fun _ => none⟩
     rfl rfl rfl (by decide) (by decide)⟩

/-- C2 counterexample: the claim quantifies over every run in which the
listing reports N collections, but when the first of two drop calls
raises, only one drop call is issued and no acknowledgment line is
printed, so "exactly N drop operations, each with one acknowledgment"
fails at N = 2. -/
theorem drop_failure_stops_loop_cex :
    (⟨none, none, none, ["users", "courses"],
        fun x => if x = "users" then some "not authorized" else none⟩
        : DBEnv).collections.length = 2
    ∧ dropsOf (resetDatabase "mongodb://localhost:27017/edu-resource"
        ⟨none, none, none, ["users", "courses"],
          fun x => if x = "users" then some "not authorized" else none⟩).2
        = ["users"]
    ∧ acksOf (resetDatabase "mongodb://localhost:27017/edu-resource"
        ⟨none, none, none, ["users", "courses"],
          fun x => if x = "users" then some "not authorized" else none⟩).2
        = [] := by
  decide

/-- C8: when, with the listing reporting `pre ++ c :: post`, every drop
in `pre` succeeds and the drop of `c` raises, the handler at the top of
the reset routine catches it (one error line), the collections of `pre`
stay dropped and acknowledged (no rollback), the drop of `c` is the last
one issued (no resumption or retry into `post`), the routine reports
failure and the process exits with code 1. -/
theorem drop_failure_no_rollback (uri : String) (env : DBEnv) (e c : String)
    (pre post : List String) (argv : List String) (response : String)
    (hc : env.connectErr = none) (hp : env.pingErr = none)
    (hl : env.listErr = none) (hcol : env.collections = pre ++ c :: post)
    (hpre : ∀ x ∈ pre, env.dropErr x = none)
    (hce : env.dropErr c = some e)
    (hrun : isForce argv = true ∨ pyStrip response = "YES") :
    (resetDatabase uri env).1 = false
    ∧ dropsOf (resetDatabase uri env).2 = pre ++ [c]
    ∧ acksOf (resetDatabase uri env).2 = pre
    ∧ errorsOf (resetDatabase uri env).2 = [e]
    ∧ (mainRun argv uri response env).1 = 1 := by
  obtain ⟨y, ys, hys⟩ : ∃ y ys, pre ++ c :: post = y :: ys := by
    cases pre with
    | nil => exact ⟨c, post, rfl⟩
    | cons a as => exact ⟨a, as ++ c :: post, by simp⟩
  have hdl : dropLoop env (y :: ys)
      = (ackList pre ++ [Event.dropCollection c], some e) := by
    rw [← hys]; exact dropLoop_err env e c pre post hpre hce
  have h1 : (resetDatabase uri env).1 = false := by
    simp [resetDatabase, hc, hp, hl, hcol, hys, hdl]
  refine ⟨h1, ?_, ?_, ?_, ?_⟩
  · simp only [resetDatabase, hc, hp, hl, hcol, hys, hdl]
    rw [dropsOf_append, dropsOf_append, dropsOf_append, dropsOf_preDrop,
      dropsOf_append, dropsOf_ackList, dropsOf_afterDrop, dropsOf_closeTrace]
    simp [dropsOf]
  · simp only [resetDatabase, hc, hp, hl, hcol, hys, hdl]
    rw [acksOf_append, acksOf_append, acksOf_append, acksOf_preDrop,
      acksOf_append, acksOf_ackList, acksOf_afterDrop, acksOf_closeTrace]
    simp [acksOf]
  · simp only [resetDatabase, hc, hp, hl, hcol, hys, hdl]
    rw [errorsOf_append, errorsOf_append, errorsOf_append, errorsOf_preDrop,
      errorsOf_append, errorsOf_ackList, errorsOf_afterDrop, errorsOf_closeTrace]
    simp [errorsOf]
  · rw [mainRun_exit_of_run argv uri response env hrun, h1]
    rfl

/-- Witness for C8: two collections, the second drop raises. -/
theorem drop_failure_no_rollback_witness :
    (⟨none, none, none, ["users", "courses"],
        fun x => if x = "courses" then some "network error" else none⟩
        : DBEnv).connectErr = none
    ∧ (⟨none, none, none, ["users", "courses"],
          fun x => if x = "courses" then some "network error" else none⟩
          : DBEnv).pingErr = none
    ∧ (⟨none, none, none, ["users", "courses"],
          fun x => if x = "courses" then some "network error" else none⟩
          : DBEnv).listErr = none
    ∧ (⟨none, none, none, ["users", "courses"],
          fun x => if x = "courses" then some "network error" else none⟩
          : DBEnv).collections = ["users"] ++ "courses" :: []
    ∧ (∀ x ∈ ["users"],
        (⟨none, none, none, ["users", "courses"],
            fun x => if x = "courses" then some "network error" else none⟩
            : DBEnv).dropErr x = none)
    ∧ (⟨none, none, none, ["users", "courses"],
          fun x => if x = "courses" then some "network error" else none⟩
          : DBEnv).dropErr "courses" = some "network error"
    ∧ (isForce ["--force"] = true ∨ pyStrip "" = "YES")
    ∧ ((resetDatabase "mongodb://localhost:27017/edu-resource"
          ⟨none, none, none, ["users", "courses"],
            fun x => if x = "courses" then some "network error" else none⟩).1 = false
      ∧ dropsOf (resetDatabase "mongodb://localhost:27017/edu-resource"
          ⟨none, none, none, ["users", "courses"],
            fun x => if x = "courses" then some "network error" else none⟩).2
          = ["users"] ++ ["courses"]
      ∧ acksOf (resetDatabase "mongodb://localhost:27017/edu-resource"
          ⟨none, none, none, ["users", "courses"],
            fun x => if x = "courses" then some "network error" else none⟩).2
          = ["users"]
      ∧ errorsOf (resetDatabase "mongodb://localhost:27017/edu-resource"
          ⟨none, none, none, ["users", "courses"],
            fun x => if x = "courses" then some "network error" else none⟩).2
          = ["network error"]
      ∧ (mainRun ["--force"] "mongodb://localhost:27017/edu-resource" ""
          ⟨none, none, none, ["users", "courses"],
            fun x => if x = "courses" then some "network error" else none⟩).1 = 1) :=
  ⟨rfl, rfl, rfl, by decide, by decide, by decide, Or.inl (by decide),
   drop_failure_no_rollback "mongodb://localhost:27017/edu-resource"
     ⟨none, none, none, ["users", "courses"],
       fun x => if x = "courses" then some "network error" else none⟩
     "network error" "courses" ["users"] [] ["--force"] ""
     rfl rfl rfl (by decide) (by decide) (by decide) (Or.inl (by decide))⟩

/-! ### Splitting lemmas for the database-name parse (claim C9) -/

theorem pysplit_ne_nil (sep : Char) (l : List Char) : pysplit sep l ≠ [] := by
  cases l with
  | nil => simp [pysplit]
  | cons c rest =>
    simp only [pysplit]
    split
    · simp
    · split <;> simp

theorem pysplit_of_not_mem (sep : Char) (l : List Char) (h : sep ∉ l) :
    pysplit sep l = [l] := by
  induction l with
  | nil => rfl
  | cons c rest ih =>
    have hc : ¬(c = sep) := fun e => h (e ▸ List.mem_cons_self c rest)
    have hr : sep ∉ rest := fun hx => h (List.mem_cons_of_mem c hx)
    simp [pysplit, hc, ih hr]

theorem pysplit_append_sep (sep : Char) (a b : List Char) (ha : sep ∉ a) :
    pysplit sep (a ++ sep :: b) = a :: pysplit sep b := by
  induction a with
  | nil => simp [pysplit]
  | cons x xs ih =>
    have hx : ¬(x = sep) := fun e => ha (e ▸ List.mem_cons_self x xs)
    have hxs : sep ∉ xs := fun hm => ha (List.mem_cons_of_mem x hm)
    simp [pysplit, hx, ih hxs]

theorem pysplit_cons_self (sep : Char) (rest : List Char) :
    pysplit sep (sep :: rest) = [] :: pysplit sep rest := by
  simp [pysplit]

theorem two_le_length_pysplit (sep : Char) (a b : List Char) :
    2 ≤ (pysplit sep (a ++ sep :: b)).length := by
  induction a with
  | nil =>
    have h1 : 0 < (pysplit sep b).length :=
      List.length_pos.mpr (pysplit_ne_nil sep b)
    simp [pysplit]
    omega
  | cons x xs ih =>
    by_cases hx : x = sep
    · subst hx
      rw [List.cons_append, pysplit_cons_self, List.length_cons]
      omega
    · simp only [List.cons_append, pysplit, if_neg hx]
      cases hsp : pysplit sep (xs ++ sep :: b) with
      | nil => exact absurd hsp (pysplit_ne_nil _ _)
      | cons g gs =>
        rw [hsp] at ih
        simp at ih ⊢
        omega

theorem lastOrNil_cons_of_ne_nil (p : List Char) (r : List (List Char))
    (hr : r ≠ []) : lastOrNil (p :: r) = lastOrNil r := by
  cases r with
  | nil => exact absurd rfl hr
  | cons g gs => rfl

theorem lastOrNil_mem (l : List (List Char)) (h : l ≠ []) : lastOrNil l ∈ l := by
  induction l with
  | nil => exact absurd rfl h
  | cons g gs ih =>
    cases gs with
    | nil => simp [lastOrNil]
    | cons g2 gs2 =>
      rw [lastOrNil_cons_of_ne_nil g (g2 :: gs2) (by simp)]
      exact List.mem_cons_of_mem g (ih (by simp))

theorem mem_of_mem_pysplit (sep : Char) (l : List Char) (p : List Char)
    (hp : p ∈ pysplit sep l) : ∀ x ∈ p, x ∈ l := by
  induction l generalizing p with
  | nil =>
    intro x hx
    simp [pysplit] at hp
    subst hp
    simp at hx
  | cons c rest ih =>
    intro x hx
    by_cases hc : c = sep
    · rw [pysplit, if_pos hc] at hp
      rcases List.mem_cons.1 hp with h1 | h2
      · subst h1; simp at hx
      · exact List.mem_cons_of_mem c (ih p h2 x hx)
    · rw [pysplit, if_neg hc] at hp
      cases hsp : pysplit sep rest with
      | nil => exact absurd hsp (pysplit_ne_nil _ _)
      | cons g gs =>
        rw [hsp] at hp
        rcases List.mem_cons.1 hp with h1 | h2
        · subst h1
          rcases List.mem_cons.1 hx with hxc | hxg
          · exact hxc ▸ List.mem_cons_self c rest
          · exact List.mem_cons_of_mem c
              (ih g (hsp ▸ List.mem_cons_self g gs) x hxg)
        · exact List.mem_cons_of_mem c
            (ih p (hsp ▸ List.mem_cons_of_mem g h2) x hx)

theorem lastOrNil_pysplit_sep (sep : Char) (a b : List Char) (hb : sep ∉ b) :
    lastOrNil (pysplit sep (a ++ sep :: b)) = b := by
  induction a with
  | nil =>
    simp only [List.nil_append, pysplit, if_pos rfl]
    rw [pysplit_of_not_mem sep b hb]
    rfl
  | cons x xs ih =>
    by_cases hx : x = sep
    · subst hx
      rw [List.cons_append, pysplit_cons_self,
        lastOrNil_cons_of_ne_nil _ _ (pysplit_ne_nil _ _)]
      exact ih
    · simp only [List.cons_append, pysplit, if_neg hx]
      cases hsp : pysplit sep (xs ++ sep :: b) with
      | nil => exact absurd hsp (pysplit_ne_nil _ _)
      | cons g gs =>
        have hgs : gs ≠ [] := by
          have h2 := two_le_length_pysplit sep xs b
          rw [hsp] at h2
          simp at h2
          intro he
          rw [he] at h2
          simp at h2
        rw [lastOrNil_cons_of_ne_nil _ _ hgs]
        rw [hsp, lastOrNil_cons_of_ne_nil _ _ hgs] at ih
        exact ih

theorem exists_first_split (sep : Char) (l : List Char) (h : sep ∈ l) :
    ∃ a b, l = a ++ sep :: b ∧ sep ∉ a := by
  induction l with
  | nil => simp at h
  | cons c rest ih =>
    by_cases hc : c = sep
    · exact ⟨[], rest, by simp [hc], by simp⟩
    · have hr : sep ∈ rest := by
        rcases List.mem_cons.1 h with h1 | h2
        · exact absurd h1.symm hc
        · exact h2
      obtain ⟨a, b, hab, hna⟩ := ih hr
      exact ⟨c :: a, b, by rw [hab]; simp, by
        intro hm
        rcases List.mem_cons.1 hm with h1 | h2
        · exact hc h1.symm
        · exact hna h2⟩

theorem exists_last_split (sep : Char) (l : List Char) (h : sep ∈ l) :
    ∃ a b, l = a ++ sep :: b ∧ sep ∉ b := by
  induction l with
  | nil => simp at h
  | cons c rest ih =>
    by_cases hr : sep ∈ rest
    · obtain ⟨a, b, hab, hnb⟩ := ih hr
      exact ⟨c :: a, b, by rw [hab]; simp, hnb⟩
    · have hc : c = sep := by
        rcases List.mem_cons.1 h with h1 | h2
        · exact h1.symm
        · exact absurd h2 hr
      exact ⟨[], rest, by simp [hc], hr⟩

theorem dropWhile_append_of_all (p : Char → Bool) (a r : List Char)
    (ha : ∀ x ∈ a, p x = true) :
    List.dropWhile p (a ++ r) = List.dropWhile p r := by
  induction a with
  | nil => rfl
  | cons x xs ih =>
    have hx : p x = true := ha x (List.mem_cons_self x xs)
    simp only [List.cons_append, List.dropWhile_cons, hx, if_true]
    exact ih fun y hy => ha y (List.mem_cons_of_mem x hy)

/-- C9 (amended): for every connection URI whose query string — the
portion from the first question mark on — contains no slash, the
database name the reset routine uses (substring after the last slash,
cut at the first question mark) equals the path segment of the URI
stripped of the query-string suffix; when the query string does contain
a slash the two can differ. -/
theorem dbNameOf_eq_pathSegment (uri : String)
    (h : '/' ∉ uri.data.dropWhile (fun ch => ch != '?')) :
    dbNameOf uri = pathSegmentOfUri uri := by
  unfold dbNameOf pathSegmentOfUri
  refine congrArg String.mk ?_
  by_cases hq : '?' ∈ uri.data
  · obtain ⟨a, b, hab, hna⟩ := exists_first_split '?' uri.data hq
    have hdw : uri.data.dropWhile (fun ch => ch != '?') = '?' :: b := by
      rw [hab, dropWhile_append_of_all _ a _ ?_]
      · simp [List.dropWhile_cons]
      · intro x hx
        have hxq : x ≠ '?' := fun e => hna (e ▸ hx)
        simp [hxq]
    have hsb : '/' ∉ b := by
      rw [hdw] at h
      exact fun hx => h (List.mem_cons_of_mem _ hx)
    have hq_spec : headOrNil (pysplit '?' uri.data) = a := by
      rw [hab, pysplit_append_sep '?' a b hna]
      rfl
    by_cases hs : '/' ∈ a
    · obtain ⟨a1, a2, ha12, hna2⟩ := exists_last_split '/' a hs
      have hna2q : '?' ∉ a2 := fun hx =>
        hna (ha12 ▸ List.mem_append.2 (Or.inr (List.mem_cons_of_mem _ hx)))
      have h1 : uri.data = a1 ++ '/' :: (a2 ++ '?' :: b) := by
        rw [hab, ha12]
        simp
      have hnotail : '/' ∉ a2 ++ '?' :: b := by
        intro hx
        rcases List.mem_append.1 hx with h2 | h3
        · exact hna2 h2
        · rcases List.mem_cons.1 h3 with h4 | h5
          · exact absurd h4 (by decide)
          · exact hsb h5
      rw [hq_spec, ha12, lastOrNil_pysplit_sep '/' a1 a2 hna2]
      rw [h1, lastOrNil_pysplit_sep '/' a1 _ hnotail,
        pysplit_append_sep '?' a2 b hna2q]
      rfl
    · have hnl : '/' ∉ uri.data := by
        rw [hab]
        intro hx
        rcases List.mem_append.1 hx with h2 | h3
        · exact hs h2
        · rcases List.mem_cons.1 h3 with h4 | h5
          · exact absurd h4 (by decide)
          · exact hsb h5
      rw [hq_spec, pysplit_of_not_mem '/' a hs, pysplit_of_not_mem '/' _ hnl]
      show headOrNil (pysplit '?' (lastOrNil [uri.data])) = lastOrNil [a]
      rw [show lastOrNil [uri.data] = uri.data from rfl,
        show lastOrNil [a] = a from rfl,
        hab, pysplit_append_sep '?' a b hna]
      rfl
  · have hqs : '?' ∉ lastOrNil (pysplit '/' uri.data) := fun hx =>
      hq (mem_of_mem_pysplit '/' uri.data _
        (lastOrNil_mem _ (pysplit_ne_nil _ _)) _ hx)
    rw [pysplit_of_not_mem '?' _ hqs, pysplit_of_not_mem '?' _ hq]
    rfl

/-- C9 counterexample: the script computes
`uri.split('/')[-1].split('?')[0]` — last slash first, then cut at the
question mark — so a query string containing a slash makes the result
differ from the path segment stripped of the query suffix. -/
theorem dbname_not_path_segment_cex :
    dbNameOf "mongodb://h/db?a=b/c" = "c"
    ∧ pathSegmentOfUri "mongodb://h/db?a=b/c" = "db"
    ∧ dbNameOf "mongodb://h/db?a=b/c"
        ≠ pathSegmentOfUri "mongodb://h/db?a=b/c" := by
  decide

/-- Witness for C9 (amended): the claim's own example URI, whose query
string contains no slash. -/
theorem dbNameOf_eq_pathSegment_witness :
    '/' ∉ "mongodb://localhost:27017/edu-resource?opt=1".data.dropWhile
        (fun ch => ch != '?')
    ∧ dbNameOf "mongodb://localhost:27017/edu-resource?opt=1"
        = pathSegmentOfUri "mongodb://localhost:27017/edu-resource?opt=1"
    ∧ dbNameOf "mongodb://localhost:27017/edu-resource?opt=1" = "edu-resource" :=
  ⟨by decide,
   dbNameOf_eq_pathSegment "mongodb://localhost:27017/edu-resource?opt=1"
     (by decide),
   by decide⟩
